import Mathlib

/-!
Verification development for the Document QA system
(`src/document_qa_system`).  The Python sources are shallowly embedded:

* Python `Document` objects (langchain `Document`) become the `Document`
  structure below; their metadata dictionaries become association lists
  over a small value type `MValue`.
* Pure string manipulation (slicing, `str.split()`, `str.strip()`,
  `str.replace`) is modelled over `List Char`, with Python's Unicode
  whitespace set made explicit, so every definition is executable and
  kernel-reducible.
* Fallible backend calls (ANN search, model invocation) are modelled as
  `Except String` valued functions; a Python `try/except` that converts
  an exception into a return value becomes a `match` on the `Except`.
* Wall-clock durations are not representable; result fields holding them
  are modelled as `Option Unit`, recording only the presence of the key.
* Python `float` arithmetic is modelled at the fidelity each use
  requires.  `int((word_count/200)*60)` is observably rounded (the
  doubles give 122 at word_count 410 where exact rationals give 123),
  so it is embedded as exact IEEE double-precision rounding
  (`roundDoublePos`, `readingTimeSeconds`).  The `0.3`/`1.5`/`0.1`/
  `0.15` threshold comparisons are modelled as exact rational
  comparisons: there the doubles and the rationals order the same
  integers at every realizable configuration, since the nearest integer
  is at least 1/10 away from the exact threshold while the rounding
  error stays far below that for any representable chunk count or
  configured chunk size.
* `str.islower`, consulted for the low-context heuristic, depends on
  the Unicode character database and is taken as an opaque character
  predicate parameter.
-/

namespace DocQA

/-- A metadata value as stored in a Python metadata dict: the code only
ever stores strings and integers there. -/
inductive MValue where
  | str (s : String)
  | nat (n : Nat)
deriving DecidableEq

/-- A Python metadata dict, as an association list. -/
abbrev Metadata := List (String × MValue)

/-- Dictionary lookup: `d.get(key)` (first binding wins; `metaInsert`
keeps keys unique). -/
def metaFind : Metadata → String → Option MValue
  | [], _ => none
  | (k, v) :: rest, key => if k = key then some v else metaFind rest key

/-- Dictionary assignment `d[key] = v`: replaces an existing binding or
appends a new one. -/
def metaInsert : Metadata → String → MValue → Metadata
  | [], k, v => [(k, v)]
  | (k', v') :: rest, k, v =>
    if k' = k then (k, v) :: rest else (k', v') :: metaInsert rest k v

/-- How a metadata value renders inside a Python f-string. -/
def MValue.display : MValue → String
  | .str s => s
  | .nat n => toString n

/-- langchain `Document`: page content plus a metadata dict. -/
structure Document where
  page_content : String
  metadata : Metadata
deriving DecidableEq

/-- Placeholder document used to express Python's `chunks[i]` indexing
total-function style; every use is guarded by an in-bounds fact. -/
def dummyDoc : Document := { page_content := "", metadata := [] }

/-! ### Python string primitives over `List Char` -/

/-- Python's Unicode whitespace set (the one used by `str.split()`,
`str.strip()` and `str.isspace()`). -/
def isPyWhitespace (c : Char) : Bool :=
  c = ' ' || c = '\t' || c = '\n' || c = '\x0b' || c = '\x0c' || c = '\r' ||
  c = '\x1c' || c = '\x1d' || c = '\x1e' || c = '\x1f' ||
  c = '\x85' || c = '\xa0' || c = '\u1680' ||
  (decide ('\u2000' ≤ c) && decide (c ≤ '\u200a')) ||
  c = '\u2028' || c = '\u2029' || c = '\u202f' || c = '\u205f' || c = '\u3000'

/-- `str.strip()`: drop leading and trailing whitespace. -/
def pyStripList (l : List Char) : List Char :=
  ((l.dropWhile isPyWhitespace).reverse.dropWhile isPyWhitespace).reverse

/-- `str.strip()` on strings. -/
def pyStrip (s : String) : String := String.mk (pyStripList s.toList)

/-- `str.split()` with no argument: maximal runs of non-whitespace
characters, empty strings discarded.  `cur` accumulates the current word
reversed. -/
def pyWordsAux : List Char → List Char → List (List Char)
  | [], cur => if cur.isEmpty then [] else [cur.reverse]
  | c :: rest, cur =>
    if isPyWhitespace c then
      if cur.isEmpty then pyWordsAux rest []
      else cur.reverse :: pyWordsAux rest []
    else pyWordsAux rest (c :: cur)

/-- `len(s.split())`: whitespace-delimited token count. -/
def pyWordCount (s : String) : Nat := (pyWordsAux s.toList []).length

/-- `s.replace('\n', ' ')` for single characters. -/
def newlineToSpace (c : Char) : Char := if c = '\n' then ' ' else c

/-! ### `TextProcessor._enhance_chunk_metadata` (text_processor.py 74-86) -/

/-- `chunk.page_content[:100].replace('\n', ' ') + "..."`: the value the
code stores under `content_preview`. -/
def pyPreview (s : String) : String :=
  String.mk ((s.toList.take 100).map newlineToSpace) ++ "..."

/-! #### IEEE double-precision arithmetic

`reading_time_seconds` is computed by CPython as `int((word_count/200)*60)`
in IEEE double precision, and the rounding is observable: at
`word_count = 410` the doubles give `(410/200)*60 = 122.99999999999999`,
so the program stores 122 where exact rational evaluation would give
123.  The two rounding steps (the true-division quotient and the product
with the exactly representable 60) are therefore modelled exactly:
`roundDoublePos` maps a positive rational to the nearest
53-bit-significand dyadic rational, round half to even, represented as
a significand-exponent pair.  Subnormals cannot arise here (the
quotient is 0 or at least 1/200) and overflow would need a word count
beyond 10^308, impossible for any representable document, so neither is
modelled. -/

/-- Floor of the base-2 logarithm, with an explicit fuel (initialised to
the argument) so the recursion is structural and kernel-reducible;
exact whenever `fuel ≥ n`. -/
def natLog2Aux : Nat → Nat → Nat
  | 0, _ => 0
  | fuel + 1, n => if 2 ≤ n then natLog2Aux fuel (n / 2) + 1 else 0

/-- `⌊log2 n⌋` for `n ≥ 1`. -/
def natLog2 (n : Nat) : Nat := natLog2Aux n n

/-- `2^e ≤ a / b` for positive naturals and an integer exponent. -/
def le2pow (a b : Nat) (e : Int) : Bool :=
  if 0 ≤ e then b * 2 ^ e.toNat ≤ a else b ≤ a * 2 ^ (-e).toNat

/-- The binade of the positive rational `a / b`: the integer `e` with
`2^e ≤ a/b < 2^(e+1)`. -/
def binadeExp (a b : Nat) : Int :=
  let e0 : Int := (natLog2 a : Int) - (natLog2 b : Int)
  if le2pow a b e0 then e0 else e0 - 1

/-- Round the positive rational `a / b` to the nearest IEEE double
(53-bit significand, ties to even): returns the pair `(m, e)` with
`2^52 ≤ m ≤ 2^53` standing for the value `m * 2^(e-52)`.  The
significand is `round((a/b) * 2^(52-e))`, computed from the integer
quotient and remainder. -/
def roundDoublePos (a b : Nat) : Nat × Int :=
  let e := binadeExp a b
  let A := if e ≤ 52 then a * 2 ^ (52 - e).toNat else a
  let B := if e ≤ 52 then b else b * 2 ^ (e - 52).toNat
  let m0 := A / B
  let r := A % B
  let m := if 2 * r < B then m0
    else if B < 2 * r then m0 + 1
    else if m0 % 2 = 0 then m0 else m0 + 1
  (m, e)

/-- `int((word_count/200)*60)` exactly as the program evaluates it:
`d1 = fl(word_count/200)` (CPython's int/int true division is correctly
rounded), then `d2 = fl(d1 * 60)` (60 is exactly representable, so one
more correct rounding of the exact product `(m1*60) * 2^(e1-52)`), then
truncation toward zero of `m2 * 2^(e2-52)` — the floor, as everything is
nonnegative. -/
def readingTimeSeconds (wordCount : Nat) : Nat :=
  if wordCount = 0 then 0
  else
    let d1 := roundDoublePos wordCount 200
    let d2 :=
      if d1.2 ≤ 52 then roundDoublePos (d1.1 * 60) (2 ^ (52 - d1.2).toNat)
      else roundDoublePos (d1.1 * 60 * 2 ^ (d1.2 - 52).toNat) 1
    if d2.2 ≤ 52 then d2.1 / 2 ^ (52 - d2.2).toNat
    else d2.1 * 2 ^ (d2.2 - 52).toNat

/-- The body of the enrichment loop for one chunk at batch index `id`. -/
def enhanceChunk (id : Nat) (chunk : Document) : Document :=
  let wordCount := pyWordCount chunk.page_content
  let m1 := metaInsert chunk.metadata "chunk_id" (.nat id)
  let m2 := metaInsert m1 "chunk_size" (.nat chunk.page_content.length)
  let m3 := metaInsert m2 "word_count" (.nat wordCount)
  let m4 := metaInsert m3 "reading_time_seconds" (.nat (readingTimeSeconds wordCount))
  let m5 := metaInsert m4 "content_preview" (.str (pyPreview chunk.page_content))
  { chunk with metadata := m5 }

/-- `TextProcessor._enhance_chunk_metadata`: `for id, chunk in
enumerate(chunks)` assigning batch-wide sequential metadata. -/
def enhanceChunkMetadata (chunks : List Document) : List Document :=
  chunks.enum.map fun p => enhanceChunk p.1 p.2

/-! ### The text splitter

`TextProcessor.__init__` configures a langchain
`RecursiveCharacterTextSplitter` with `length_function = len`,
`is_separator_regex = False` (so every separator is a literal string) and
the library defaults `keep_separator = True` and `strip_whitespace =
True`.  The splitter is an external dependency, so its published
algorithm (`_split_text`, `_split_text_with_regex`, `_merge_splits`,
`create_documents`) is embedded below at exactly that configuration:
separators attach to the start of the following piece, pieces are merged
with the empty separator, and merged chunks are stripped and dropped when
empty. -/

/-- One step of scanning for a literal separator: split the character
list at every non-overlapping leftmost occurrence of `sep` (Python
`re.split` on the escaped separator).  `fuel` bounds the recursion and is
initialised to the text length, which suffices because every step
consumes at least one character when `sep` is nonempty. -/
def splitOnListAux (sep : List Char) : Nat → List Char → List Char → List (List Char)
  | _, [], cur => [cur.reverse]
  | 0, l, cur => [cur.reverse ++ l]
  | fuel + 1, c :: rest, cur =>
    if !sep.isEmpty && sep.isPrefixOf (c :: rest) then
      cur.reverse :: splitOnListAux sep fuel ((c :: rest).drop sep.length) []
    else
      splitOnListAux sep fuel rest (c :: cur)

/-- `re.split(escaped sep, text)` over character lists. -/
def splitOnList (sep l : List Char) : List (List Char) :=
  splitOnListAux sep l.length l []

/-- `re.search(escaped sep, text)`: literal substring occurrence. -/
def containsSub (sep l : List Char) : Bool :=
  l.tails.any fun t => sep.isPrefixOf t

/-- `_split_text_with_regex(text, separator, keep_separator=True)`: for a
nonempty separator, split and re-attach each separator occurrence to the
start of the following piece; for the empty separator, `list(text)`.
Empty pieces are discarded. -/
def splitWithSep (sep : String) (text : String) : List String :=
  if sep = "" then
    (text.toList.map fun c => String.mk [c]).filter fun x => x != ""
  else
    match (splitOnList sep.toList text.toList).map String.mk with
    | [] => []
    | p0 :: rest => (p0 :: rest.map fun p => sep ++ p).filter fun x => x != ""

/-- The `while` loop inside `_merge_splits` that drops leading pieces of
the running window until the overlap budget is respected (the separator
length terms vanish because the merge separator is empty under
`keep_separator=True`). -/
def shrinkDoc (S O lenD : Nat) : List String → Nat → List String × Nat
  | [], total => ([], total)
  | d :: rest, total =>
    if total > O ∨ (total + lenD > S ∧ total > 0) then
      shrinkDoc S O lenD rest (total - d.length)
    else (d :: rest, total)

/-- `_join_docs(docs, separator="")`: join, strip, drop if empty. -/
def joinDocs (docs : List String) : Option String :=
  let text := pyStrip (String.join docs)
  if text = "" then none else some text

/-- One iteration of the `for d in splits` loop of `_merge_splits`:
state is (emitted docs, current window, window length). -/
def mergeStep (S O : Nat) (acc : List String × List String × Nat) (d : String) :
    List String × List String × Nat :=
  let docs := acc.1
  let cur := acc.2.1
  let total := acc.2.2
  let lenD := d.length
  let next :=
    if total + lenD > S then
      if cur.isEmpty then (docs, cur, total)
      else
        let docs2 :=
          match joinDocs cur with
          | some t => docs ++ [t]
          | none => docs
        let p := shrinkDoc S O lenD cur total
        (docs2, p.1, p.2)
    else (docs, cur, total)
  (next.1, next.2.1 ++ [d], next.2.2 + lenD)

/-- `_merge_splits(splits, separator="")`. -/
def mergeSplits (S O : Nat) (splits : List String) : List String :=
  let st := splits.foldl (mergeStep S O) ([], [], 0)
  match joinDocs st.2.1 with
  | some t => st.1 ++ [t]
  | none => st.1

/-- The split-accumulation loop of `_split_text`: each piece comes paired
with the recursively-computed result of splitting it with the remaining
separators (used only when the piece overflows and separators remain). -/
def finishSplit (S O : Nat) (newSepsEmpty : Bool)
    (pairs : List (String × List String)) : List String :=
  let step := fun (acc : List String × List String) (p : String × List String) =>
    if p.1.length < S then (acc.1, acc.2 ++ [p.1])
    else
      let fc1 := if acc.2.isEmpty then acc.1 else acc.1 ++ mergeSplits S O acc.2
      let fc2 := if newSepsEmpty then fc1 ++ [p.1] else fc1 ++ p.2
      (fc2, [])
  let st := pairs.foldl step ([], [])
  if st.2.isEmpty then st.1 else st.1 ++ mergeSplits S O st.2

/-- `RecursiveCharacterTextSplitter._split_text(text, separators)`: the
first branch mirrors the separator-selection loop breaking at the empty
separator, the second a matching separator with separators left to
recurse on, the third the fallback to the last separator with no
remaining separators (reached both when the last separator matches and
when nothing matched), and the fourth continues the selection scan. -/
def splitTextAux (S O : Nat) : List String → String → List String
  | [], _text => []
  | s :: rest, text =>
    if s = "" then
      finishSplit S O true ((splitWithSep "" text).map fun t => (t, []))
    else if containsSub s.toList text.toList && !rest.isEmpty then
      finishSplit S O false
        ((splitWithSep s text).map fun t => (t, splitTextAux S O rest t))
    else if rest.isEmpty then
      finishSplit S O true ((splitWithSep s text).map fun t => (t, []))
    else
      splitTextAux S O rest text

/-- The default separator list from `TextProcessor.__init__`. -/
def defaultSeparators : List String :=
  ["\n\n", "\n", ". ", "! ", "? ", "; ", ", ", " ", ""]

/-- The configuration a `TextProcessor` holds (chunk size, overlap,
separator priority list). -/
structure TextProcessor where
  chunk_size : Nat := 1000
  chunk_overlap : Nat := 200
  separators : List String := defaultSeparators
deriving DecidableEq

/-- `splitter.split_text(text)`. -/
def splitText (tp : TextProcessor) (text : String) : List String :=
  splitTextAux tp.chunk_size tp.chunk_overlap tp.separators text

/-- `splitter.split_documents(documents)` =
`create_documents([d.page_content ...], [d.metadata ...])`: every text is
split and each resulting chunk carries a copy of its document's
metadata. -/
def splitDocuments (tp : TextProcessor) (documents : List Document) : List Document :=
  (documents.map fun d =>
    (splitText tp d.page_content).map fun c =>
      { page_content := c, metadata := d.metadata }).flatten

/-- `TextProcessor.process_documents` (text_processor.py 42-65): early
return on no documents, split, optionally enrich metadata.  The
statistics computed afterwards only feed a log line and cannot fail
(`_calculate_statistics` returns a zero record for an empty chunk
list). -/
def process_documents (tp : TextProcessor) (documents : List Document)
    (add_chunk_metadata : Bool) : List Document :=
  if documents.isEmpty then []
  else
    let chunks := splitDocuments tp documents
    if add_chunk_metadata then enhanceChunkMetadata chunks else chunks

/-! ### `TextProcessor.analyze_chunk_quality` (text_processor.py 108-163) -/

/-- The quality-metrics sub-dict of the analysis report. -/
structure QualityMetrics where
  chunks_too_small : Nat
  chunks_too_large : Nat
  chunks_with_low_context : Nat
deriving DecidableEq

/-- The analysis report for a nonempty chunk list (the empty list gets
an error dict, modelled as `Except.error`). -/
structure ChunkAnalysis where
  total_chunks : Nat
  average_size : Nat
  size_range : Nat × Nat
  quality_metrics : QualityMetrics
  recommendations : List String
deriving DecidableEq

/-- The recommendation emitted when too many chunks are tiny. -/
def recSmallMsg (n : Nat) : String :=
  toString n ++ " chunks are very small. Consider reducing chunk_size or adjusting separators."

/-- The recommendation emitted when too many chunks are oversized. -/
def recLargeMsg (n : Nat) : String :=
  toString n ++ " chunks are very large. Consider increasing chunk_size or reviewing document structure."

/-- The recommendation emitted when too many chunks start mid-sentence. -/
def recLowMsg (n : Nat) : String :=
  toString n ++ " chunks start mid-sentence. Consider increasing chunk_overlap for better context."

/-- The positive acknowledgment emitted when nothing triggered. -/
def recGoodMsg : String := "Chunk quality looks good!"

/-- `if content and content[0].islower()`: nonempty content whose first
character satisfies `str.islower`.  For a single character `islower`
holds exactly on the Unicode lowercase letters ('a'..'z' but also 'é',
'α', ...), per the Unicode character database the interpreter ships;
the builtin therefore enters the embedding as an opaque character
predicate rather than as an ASCII approximation. -/
def lowContextChunk (islower : Char → Bool) (c : Document) : Bool :=
  match c.page_content.toList with
  | [] => false
  | ch :: _ => islower ch

/-- The recommendation block of `analyze_chunk_quality`
(text_processor.py 139-161): a list built up by the three conditional
appends (10 percent thresholds for the size categories, 15 percent for
low context; the Python floats are exact rationals here) and replaced by
the single positive message when it stayed empty. -/
def buildRecommendations (total too_small too_large low_context : Nat) : List String :=
  let recs1 : List String :=
    if decide ((too_small : ℚ) > (total : ℚ) * (1 / 10)) then [recSmallMsg too_small] else []
  let recs2 := recs1 ++
    (if decide ((too_large : ℚ) > (total : ℚ) * (1 / 10)) then [recLargeMsg too_large] else [])
  let recs3 := recs2 ++
    (if decide ((low_context : ℚ) > (total : ℚ) * (15 / 100)) then [recLowMsg low_context] else [])
  if recs3.isEmpty then [recGoodMsg] else recs3

/-- `TextProcessor.analyze_chunk_quality`: size statistics, the three
chunk classifications (`< chunk_size * 0.3`, `> chunk_size * 1.5`,
lowercase-start heuristic skipping chunk 0 via `range(1, len(chunks))`,
with `str.islower` as the opaque predicate `islower`),
and the threshold-gated recommendations (10 percent for the size
categories, 15 percent for low context), with a single positive message
when none triggered.  The float thresholds are modelled exactly over
`ℚ`, which coincides with double evaluation here (see the header
note). -/
def analyze_chunk_quality (islower : Char → Bool) (tp : TextProcessor)
    (chunks : List Document) : Except String ChunkAnalysis :=
  if chunks.isEmpty then .error "No chunk to analyze"
  else
    let sizes := chunks.map fun c => c.page_content.length
    let total := chunks.length
    let too_small := (chunks.filter fun c =>
      decide ((c.page_content.length : ℚ) < (tp.chunk_size : ℚ) * (3 / 10))).length
    let too_large := (chunks.filter fun c =>
      decide ((c.page_content.length : ℚ) > (tp.chunk_size : ℚ) * (3 / 2))).length
    let low_context := ((List.range' 1 (total - 1)).filter fun i =>
      lowContextChunk islower (chunks.getD i dummyDoc)).length
    let recs := buildRecommendations total too_small too_large low_context
    .ok
      { total_chunks := total
        average_size := sizes.sum / total
        size_range := ((sizes.min?).getD 0, (sizes.max?).getD 0)
        quality_metrics :=
          { chunks_too_small := too_small
            chunks_too_large := too_large
            chunks_with_low_context := low_context }
        recommendations := recs }


/-! ### `VectorStoreManager` (vectorstore.py)

The Chroma backend and the embedding model are external collaborators;
they are modelled as an abstract store.  For `similarity_search` the
store is a pair of fallible search functions (an exception raised by the
backend is an `Except.error`).  For `add_documents` the store is a
concrete record of indexed documents together with an injectable insert
failure and a counter of backend insert invocations (each Chroma
`add_documents` call embeds its batch and inserts it; the counter
records that the call happened at all). -/

/-- The backend search surface of an initialized Chroma vector store:
`similarity_search(query, k)` with and without a metadata filter. -/
structure ChromaSearch where
  search : String → Nat → Except String (List Document)
  searchFiltered : String → Nat → Metadata → Except String (List Document)

/-- `VectorStoreManager` as `similarity_search` sees it:
`self.vector_store` is `None` or an initialized store. -/
structure VectorStoreManager where
  vector_store : Option ChromaSearch

/-- The backend call `similarity_search` makes inside its `try` block:
with a filter dict when one is given, without otherwise. -/
def backendSearch (vs : ChromaSearch) (query : String) (k : Nat)
    (filter_dict : Option Metadata) : Except String (List Document) :=
  match filter_dict with
  | some fd => vs.searchFiltered query k fd
  | none => vs.search query k

/-- `VectorStoreManager.similarity_search` (vectorstore.py 113-140):
empty result when the store is uninitialized, backend call inside
`try`, empty result when it raises.  The function is total: no code
path propagates an exception to the caller. -/
def similarity_search (m : VectorStoreManager) (query : String) (k : Nat)
    (filter_dict : Option Metadata) : List Document :=
  match m.vector_store with
  | none => []
  | some vs =>
    match backendSearch vs query k filter_dict with
    | .ok results => results
    | .error _ => []

/-- The state of an initialized Chroma collection for `add_documents`:
the persisted records, an injectable insert-time failure, and how many
backend insert (and hence embedding) calls have been made. -/
structure ChromaBackend where
  docs : List Document
  insert_error : Option String := none
  insertCalls : Nat := 0
deriving DecidableEq

/-- One `self.vector_store.add_documents(batch)` call: it always counts
as a backend invocation and either commits the batch or raises. -/
def insertBatch (b : ChromaBackend) (batch : List Document) :
    ChromaBackend × Option String :=
  match b.insert_error with
  | some e => ({ b with insertCalls := b.insertCalls + 1 }, some e)
  | none =>
    ({ b with docs := b.docs ++ batch, insertCalls := b.insertCalls + 1 }, none)

/-- `range(0, len(documents), batch_size)` slicing: the document list in
consecutive batches of `batch_size`.  `fuel` (initialised to the list
length) makes the recursion structural; it never runs out for
`batch_size ≥ 1`, and the Python loop is only defined there
(`range` with step 0 raises). -/
def toBatchesAux (batch_size : Nat) : Nat → List Document → List (List Document)
  | _, [] => []
  | 0, l => [l]
  | fuel + 1, d :: rest =>
    (d :: rest).take batch_size :: toBatchesAux batch_size fuel ((d :: rest).drop batch_size)

/-- The batches one `add_documents` call processes. -/
def toBatches (batch_size : Nat) (documents : List Document) : List (List Document) :=
  toBatchesAux batch_size documents.length documents

/-- The batch loop of `add_documents`: batches commit sequentially and
the first raised error aborts the loop, leaving the previously committed
batches in place. -/
def runBatches (b : ChromaBackend) : List (List Document) → ChromaBackend × Option String
  | [] => (b, none)
  | batch :: rest =>
    match insertBatch b batch with
    | (b', none) => runBatches b' rest
    | (b', some e) => (b', some e)

/-- The result dict of `add_documents`.  `duration_seconds` holds a
wall-clock time and is modelled as presence only. -/
structure AddResult where
  success : Bool
  error : Option String := none
  documents_added : Option Nat := none
  total_documents : Option Nat := none
  duration_seconds : Option Unit := none
deriving DecidableEq

/-- `VectorStoreManager.add_documents` (vectorstore.py 68-111): early
failure dict on empty input before any backend work, otherwise the
batched insert loop with `documents_added` computed as the count delta,
and exception conversion to a failure dict. -/
def add_documents (b : ChromaBackend) (documents : List Document)
    (batch_size : Nat) : AddResult × ChromaBackend :=
  if documents.isEmpty then
    ({ success := false, error := some "No documents" }, b)
  else
    let initial_count := b.docs.length
    match runBatches b (toBatches batch_size documents) with
    | (b', none) =>
      let final_count := b'.docs.length
      ({ success := true, documents_added := some (final_count - initial_count),
         total_documents := some final_count, duration_seconds := some () }, b')
    | (b', some e) => ({ success := false, error := some e }, b')

/-! ### `RAGChain` (rag_chain.py)

The retriever and the Groq model are external backends; a `RAGBackend`
packages the three calls the chain makes (`retriever.invoke`,
`chain.invoke`, `chain.batch`) as fallible functions.  An instrumentation
counter (`calls`) is threaded through `query`/`batch_query` and
incremented at every backend invocation, so "no backend call happened"
is expressible as the counter coming back unchanged.  A Python result
dict becomes a record whose optional fields record key presence. -/

/-- The backend surface one `RAGChain` instance is bound to. -/
structure RAGBackend where
  retrieve : String → Except String (List Document)
  chainInvoke : String → Except String String
  chainBatch : List String → Except String (List String)
  model_name : String

/-- One citation record built by `RAGChain._format_sources`
(rag_chain.py 193-210). -/
structure SourceInfo where
  index : Nat
  file : MValue
  chunk_id : MValue
  preview : String
  full_content : String
  page : Option MValue := none
deriving DecidableEq

/-- `doc.page_content[:200].replace('\n', ' ') + "..."`. -/
def pySourcePreview (s : String) : String :=
  String.mk ((s.toList.take 200).map newlineToSpace) ++ "..."

/-- `RAGChain._format_sources`: 1-based enumeration over the retrieved
documents with metadata defaults `'Unknown'` and `'N/A'`. -/
def formatSources (documents : List Document) : List SourceInfo :=
  (List.enumFrom 1 documents).map fun p =>
    { index := p.1
      file := (metaFind p.2.metadata "source_file").getD (.str "Unknown")
      chunk_id := (metaFind p.2.metadata "chunk_id").getD (.str "N/A")
      preview := pySourcePreview p.2.page_content
      full_content := p.2.page_content
      page := metaFind p.2.metadata "page" }

/-- `RAGChain._format_docs` (rag_chain.py 68-75): render each retrieved
document with its 1-based rank and source file (default `'Unknown'`)
and join the rendered blocks with a newline; since each block itself
ends in a newline, consecutive blocks are separated by a blank line. -/
def formatDocs (docs : List Document) : String :=
  String.intercalate "\n" ((List.enumFrom 1 docs).map fun p =>
    "[Source " ++ toString p.1 ++ ": " ++
      ((metaFind p.2.metadata "source_file").getD (.str "Unknown")).display ++
      "]\n" ++ p.2.page_content ++ "\n")

/-- A `query`/`batch_query` result dict: optional fields model key
presence, `processing_time` (a wall-clock duration) as presence only. -/
structure QueryResult where
  success : Bool
  question : Option String := none
  answer : Option String := none
  error : Option String := none
  processing_time : Option Unit := none
  model : Option String := none
  sources : Option (List SourceInfo) := none
  num_sources : Option Nat := none
deriving DecidableEq

/-- The blank-question guard `not question or not question.strip()`. -/
def blankQuestion (question : String) : Bool :=
  question = "" || pyStrip question = ""

/-- `RAGChain.query` (rag_chain.py 90-137).  `calls` counts backend
invocations (retriever or model); the guard path returns before any.
On the success path with `return_sources` the retriever is invoked
separately and then the full chain (which raises if either retrieval or
generation does); every exception is converted to a failure dict
carrying the question and the exception text. -/
def query (env : RAGBackend) (calls : Nat) (question : String)
    (return_sources : Bool) : QueryResult × Nat :=
  if blankQuestion question then
    ({ success := false, error := some "Empty question provided" }, calls)
  else if return_sources then
    match env.retrieve question with
    | .error e => ({ success := false, question := some question, error := some e }, calls + 1)
    | .ok docs =>
      match env.chainInvoke question with
      | .error e =>
        ({ success := false, question := some question, error := some e }, calls + 2)
      | .ok answer =>
        let sources := formatSources docs
        ({ success := true, question := some question, answer := some answer,
           processing_time := some (), model := some env.model_name,
           sources := some sources, num_sources := some sources.length }, calls + 2)
  else
    match env.chainInvoke question with
    | .error e => ({ success := false, question := some question, error := some e }, calls + 1)
    | .ok answer =>
      ({ success := true, question := some question, answer := some answer,
         processing_time := some (), model := some env.model_name }, calls + 1)

/-- The per-question result loop of `batch_query` after a successful
`chain.batch` call: `zip(questions, answers)` in order, optionally
retrieving sources per question (a retrieval exception there is caught
by the surrounding `try` and fails the whole batch).  Returns the
results together with the number of backend calls made, or the error
text and the calls made before it was raised. -/
def buildBatchResults (env : RAGBackend) (return_sources : Bool) :
    List (String × String) → Except (String × Nat) (List QueryResult × Nat)
  | [] => .ok ([], 0)
  | (q, a) :: rest =>
    if return_sources then
      match env.retrieve q with
      | .error e => .error (e, 1)
      | .ok docs =>
        match buildBatchResults env return_sources rest with
        | .ok (l, c) =>
          .ok ({ success := true, question := some q, answer := some a,
                 model := some env.model_name,
                 sources := some (formatSources docs),
                 num_sources := some docs.length } :: l, c + 1)
        | .error (e, c) => .error (e, c + 1)
    else
      match buildBatchResults env return_sources rest with
      | .ok (l, c) =>
        .ok ({ success := true, question := some q, answer := some a,
               model := some env.model_name } :: l, c)
      | .error p => .error p

/-- The failure dict list `batch_query` builds in its `except` block:
one per question, all with the same error text. -/
def batchFailureResults (questions : List String) (e : String) : List QueryResult :=
  questions.map fun q => { success := false, question := some q, error := some e }

/-- `RAGChain.batch_query` (rag_chain.py 154-191): one `chain.batch`
call; on success one result per zipped question/answer pair, on any
exception (from the batch call or a per-question source retrieval) the
uniform failure list. -/
def batch_query (env : RAGBackend) (calls : Nat) (questions : List String)
    (return_sources : Bool) : List QueryResult × Nat :=
  match env.chainBatch questions with
  | .error e => (batchFailureResults questions e, calls + 1)
  | .ok answers =>
    match buildBatchResults env return_sources (questions.zip answers) with
    | .ok (results, c) => (results, calls + 1 + c)
    | .error (e, c) => (batchFailureResults questions e, calls + 1 + c)

/-! ### Spec-side formulations

The following definitions are written from the specification's words,
not from the code, and only appear on the specification side of
refinement theorems. -/

/-- Spec formulation of one rendered context block: `[Source rank:
source_file]`, newline, content, newline, with `Unknown` when the
metadata lacks `source_file`. -/
def specRenderBlock (rank : Nat) (d : Document) : String :=
  "[Source " ++ toString rank ++ ": " ++
    (match metaFind d.metadata "source_file" with
     | some v => v.display
     | none => "Unknown") ++
    "]\n" ++ d.page_content ++ "\n"

/-- Spec formulation of the rendered blocks: rank starts at 1 and
follows retrieval order exactly. -/
def specContextBlocks : Nat → List Document → List String
  | _, [] => []
  | rank, d :: rest => specRenderBlock rank d :: specContextBlocks (rank + 1) rest

/-- Spec formulation of the assembled context: the blocks in rank order,
joined so that one blank line separates consecutive blocks (each block
ends in a newline and one more newline is inserted between blocks). -/
def specAssembleContext (docs : List Document) : String :=
  String.intercalate "\n" (specContextBlocks 1 docs)

/-- Spec formulation of the quality recommendations: one message per
category whose count exceeds its threshold (10 percent of the chunks
for the size categories, 15 percent for low context), and exactly one
positive acknowledgment when no category triggers. -/
def specRecommendations (total too_small too_large low_context : Nat) : List String :=
  let triggered :=
    (if (too_small : ℚ) > (total : ℚ) / 10 then [recSmallMsg too_small] else []) ++
    (if (too_large : ℚ) > (total : ℚ) / 10 then [recLargeMsg too_large] else []) ++
    (if (low_context : ℚ) > (total : ℚ) * 15 / 100 then [recLowMsg low_context] else [])
  if triggered = [] then [recGoodMsg] else triggered

/-! ### Concrete fixtures used by witnesses -/

/-- A trivial backend whose calls all succeed. -/
def envOk : RAGBackend :=
  { retrieve := fun _ => .ok []
    chainInvoke := fun _ => .ok "fine"
    chainBatch := fun qs => .ok (qs.map fun _ => "fine")
    model_name := "llama-3.3-70b-versatile" }

/-- A backend whose batch call raises. -/
def envBatchBoom : RAGBackend :=
  { envOk with chainBatch := fun _ => .error "rate limit" }

/-- An initialized search store whose backend calls raise. -/
def searchBoom : ChromaSearch :=
  { search := fun _ _ => .error "collection gone"
    searchFiltered := fun _ _ _ => .error "collection gone" }

/-! ### Shared lemmas -/

/-- A string all of whose characters are Python whitespace is blank in
the sense of the `query` guard. -/
lemma blankQuestion_of_all_whitespace (q : String)
    (h : q.toList.all isPyWhitespace = true) : blankQuestion q = true := by
  have hd : q.toList.dropWhile isPyWhitespace = [] := by
    rw [List.dropWhile_eq_nil_iff]
    intro x hx
    exact List.all_eq_true.mp h x hx
  have hs : pyStrip q = "" := by
    unfold pyStrip pyStripList
    rw [hd]
    rfl
  simp [blankQuestion, hs]

/-- Lookup after dictionary assignment. -/
lemma metaFind_metaInsert (m : Metadata) (k k' : String) (v : MValue) :
    metaFind (metaInsert m k v) k' = if k = k' then some v else metaFind m k' := by
  induction m with
  | nil => simp [metaInsert, metaFind]
  | cons p rest ih =>
    obtain ⟨k1, v1⟩ := p
    by_cases h1 : k1 = k
    · subst h1
      by_cases h2 : k1 = k'
      · subst h2; simp [metaInsert, metaFind]
      · simp [metaInsert, metaFind, h2]
    · by_cases h2 : k1 = k'
      · subst h2
        have hk : k ≠ k1 := fun hk => h1 hk.symm
        simp [metaInsert, metaFind, h1, hk, ih]
      · simp [metaInsert, metaFind, h1, h2, ih]

/-- Enrichment does not change a chunk's content. -/
lemma enhanceChunk_page_content (id : Nat) (c : Document) :
    (enhanceChunk id c).page_content = c.page_content := rfl

/-- The `i`-th element of the enriched batch is the `i`-th raw chunk
enriched with batch index `i`. -/
lemma get_enhanceChunkMetadata (chunks : List Document) (i : Nat)
    (h : i < (enhanceChunkMetadata chunks).length) :
    (enhanceChunkMetadata chunks).get ⟨i, h⟩ =
      enhanceChunk i (chunks.get ⟨i, by simpa [enhanceChunkMetadata] using h⟩) := by
  simp [enhanceChunkMetadata, List.get_eq_getElem]

/-- The five metadata fields written by `enhanceChunk`, looked up. -/
lemma metaFind_enhanceChunk (id : Nat) (c : Document) :
    metaFind (enhanceChunk id c).metadata "chunk_id" = some (.nat id) ∧
    metaFind (enhanceChunk id c).metadata "chunk_size" =
      some (.nat c.page_content.length) ∧
    metaFind (enhanceChunk id c).metadata "word_count" =
      some (.nat (pyWordCount c.page_content)) ∧
    metaFind (enhanceChunk id c).metadata "reading_time_seconds" =
      some (.nat (readingTimeSeconds (pyWordCount c.page_content))) ∧
    metaFind (enhanceChunk id c).metadata "content_preview" =
      some (.str (pyPreview c.page_content)) := by
  refine ⟨?_, ?_, ?_, ?_, ?_⟩ <;>
    simp [enhanceChunk, metaFind_metaInsert]

/-! ### C1: blank questions are rejected without any backend call -/

/-- C1.  For every question that is empty or consists only of
whitespace, `RAGChain.query` returns the failure dict with
`success=false` (and the fixed error text), and the backend-invocation
counter comes back unchanged: neither the retriever nor the language
model is invoked. -/
theorem query_blank_rejected (env : RAGBackend) (calls : Nat) (question : String)
    (return_sources : Bool) (h : question.toList.all isPyWhitespace = true) :
    query env calls question return_sources =
      ({ success := false, error := some "Empty question provided" }, calls) := by
  have hb := blankQuestion_of_all_whitespace question h
  simp [query, hb]

/-- Witness for C1 at the whitespace-only question `"   "`. -/
theorem query_blank_rejected_witness :
    ("   ".toList.all isPyWhitespace = true) ∧
    query envOk 0 "   " true =
      ({ success := false, error := some "Empty question provided" }, 0) :=
  ⟨by decide, query_blank_rejected envOk 0 "   " true (by decide)⟩

/-! ### C4: failed or uninitialized search returns the empty list -/

/-- C4.  `VectorStoreManager.similarity_search` returns `[]` whenever
the vector store is uninitialized, and `[]` whenever the backend search
call raises; being a total function of the backend outcome, it never
propagates an exception to its caller. -/
theorem similarity_search_failure_empty (m : VectorStoreManager)
    (query_text : String) (k : Nat) (filter_dict : Option Metadata) :
    (m.vector_store = none → similarity_search m query_text k filter_dict = []) ∧
    (∀ vs e, m.vector_store = some vs →
      backendSearch vs query_text k filter_dict = .error e →
      similarity_search m query_text k filter_dict = []) := by
  constructor
  · intro h
    simp [similarity_search, h]
  · intro vs e hvs he
    simp [similarity_search, hvs, he]

/-- Witness for C4: an uninitialized manager and a raising backend. -/
theorem similarity_search_failure_empty_witness :
    similarity_search ⟨none⟩ "capital" 4 none = [] ∧
    similarity_search ⟨some searchBoom⟩ "capital" 4 none = [] :=
  ⟨(similarity_search_failure_empty ⟨none⟩ "capital" 4 none).1 rfl,
   (similarity_search_failure_empty ⟨some searchBoom⟩ "capital" 4 none).2
     searchBoom "collection gone" rfl rfl⟩

/-! ### C10: adding an empty chunk list fails fast -/

/-- C10.  `VectorStoreManager.add_documents` on an empty document list
returns the failure dict with error `No documents` and leaves the
backend state (indexed records and insert-call counter — hence the
embedding too) untouched; in particular the result carries no
`documents_added` key, so `add` never reports success with zero
documents added for empty input. -/
theorem add_documents_empty_rejected (b : ChromaBackend) (batch_size : Nat) :
    add_documents b [] batch_size =
      ({ success := false, error := some "No documents" }, b) ∧
    (add_documents b [] batch_size).2.insertCalls = b.insertCalls ∧
    (add_documents b [] batch_size).2.docs.length = b.docs.length ∧
    (add_documents b [] batch_size).1.documents_added = none ∧
    (add_documents b [] batch_size).1.success = false :=
  ⟨rfl, rfl, rfl, rfl, rfl⟩

/-- Witness for C10 on a nonempty pre-existing index. -/
theorem add_documents_empty_rejected_witness :
    add_documents { docs := [dummyDoc] } [] 100 =
      ({ success := false, error := some "No documents" }, { docs := [dummyDoc] }) :=
  (add_documents_empty_rejected { docs := [dummyDoc] } 100).1

/-! ### C6: a failed batch call fails every question uniformly -/

/-- C6.  When the batch model call raises, `RAGChain.batch_query`
returns exactly one result per question, in order, each carrying its
question, `success=false` and the identical error text; no result in
the failed batch reports success. -/
theorem batch_query_failure_uniform (env : RAGBackend) (calls : Nat)
    (questions : List String) (return_sources : Bool) (e : String)
    (h : env.chainBatch questions = .error e) :
    (batch_query env calls questions return_sources).1 =
      questions.map (fun q =>
        { success := false, question := some q, error := some e }) ∧
    (batch_query env calls questions return_sources).1.length = questions.length ∧
    (∀ r ∈ (batch_query env calls questions return_sources).1,
      r.success = false ∧ r.error = some e) := by
  have hres : (batch_query env calls questions return_sources).1 =
      questions.map (fun q =>
        { success := false, question := some q, error := some e }) := by
    simp [batch_query, h, batchFailureResults]
  refine ⟨hres, ?_, ?_⟩
  · rw [hres]; simp
  · intro r hr
    rw [hres] at hr
    obtain ⟨q, _, rfl⟩ := List.mem_map.mp hr
    exact ⟨rfl, rfl⟩

/-- Witness for C6 on a two-question batch against a raising backend. -/
theorem batch_query_failure_uniform_witness :
    (batch_query envBatchBoom 0 ["a", "b"] false).1 =
      [{ success := false, question := some "a", error := some "rate limit" },
       { success := false, question := some "b", error := some "rate limit" }] := by
  have h := (batch_query_failure_uniform envBatchBoom 0 ["a", "b"] false
    "rate limit" rfl).1
  simpa using h

/-! ### C9: empty input and empty content produce zero chunks -/

/-- C9.  Processing an empty document sequence, or a sequence holding a
single document with empty content, yields the empty chunk sequence for
every chunk size, overlap, metadata dict and enrichment flag; both are
plain return values, not errors (the embedded functions are total). -/
theorem process_documents_empty (S O : Nat) (m : Metadata) (b : Bool) :
    process_documents { chunk_size := S, chunk_overlap := O } [] b = [] ∧
    process_documents { chunk_size := S, chunk_overlap := O }
      [{ page_content := "", metadata := m }] b = [] := by
  constructor
  · rfl
  · cases b <;> rfl

/-- Witness for C9 at the default configuration. -/
theorem process_documents_empty_witness :
    process_documents {} [] true = [] ∧
    process_documents {} [{ page_content := "", metadata := [] }] true = [] :=
  process_documents_empty 1000 200 [] true

/-! ### C7: result-shape invariants of `query`

The claim as stated is false: the blank-question early return
(rag_chain.py 93-97) builds a dict holding only `success` and `error`,
so that result does not contain the `question` key.  The `error`-iff-
failure half and the `question` key on every non-blank path do hold. -/

/-- C7 counterexample.  `query("")` returns a result that does not
contain the `question` field, refuting "every result mapping returned
by query contains the question field it was asked". -/
theorem query_result_question_missing :
    (query envOk 0 "" true).1.question = none ∧
    (query envOk 0 "" true).1.success = false :=
  ⟨rfl, rfl⟩

/-- C7 as amended.  Every result returned by `RAGChain.query` contains
an `error` field iff its `success` flag is false; and every result for
a non-blank question also contains the `question` field (the
blank-question rejection is the one result shape without it). -/
theorem query_result_error_iff_failure (env : RAGBackend) (calls : Nat)
    (question : String) (return_sources : Bool) :
    ((query env calls question return_sources).1.error.isSome ↔
      (query env calls question return_sources).1.success = false) ∧
    (blankQuestion question = false →
      (query env calls question return_sources).1.question = some question) := by
  cases hb : blankQuestion question
  · cases return_sources
    · cases h : env.chainInvoke question <;> simp [query, hb, h]
    · cases h1 : env.retrieve question
      · simp [query, hb, h1]
      · cases h2 : env.chainInvoke question <;> simp [query, hb, h1, h2]
  · simp [query, hb]

/-- Witness for the amended C7 at a non-blank question. -/
theorem query_result_error_iff_failure_witness :
    ((query envOk 0 "hi" true).1.error.isSome ↔
      (query envOk 0 "hi" true).1.success = false) ∧
    (blankQuestion "hi" = false →
      (query envOk 0 "hi" true).1.question = some "hi") :=
  query_result_error_iff_failure envOk 0 "hi" true

/-! ### C3: context assembly -/

/-- The 1-based enumeration rendering of `_format_docs` agrees with the
rank-recursive spec rendering, for every start rank. -/
lemma enumFrom_map_renderBlock (docs : List Document) : ∀ n : Nat,
    ((List.enumFrom n docs).map fun p =>
      "[Source " ++ toString p.1 ++ ": " ++
        ((metaFind p.2.metadata "source_file").getD (.str "Unknown")).display ++
        "]\n" ++ p.2.page_content ++ "\n") =
      specContextBlocks n docs := by
  induction docs with
  | nil => intro n; simp [specContextBlocks]
  | cons d rest ih =>
    intro n
    rw [List.enumFrom]
    rw [List.map_cons, specContextBlocks, ih (n + 1)]
    congr 1
    unfold specRenderBlock
    cases metaFind d.metadata "source_file" <;> rfl

/-- C3.  The context `_format_docs` assembles is exactly the
spec-described rendering: each retrieved chunk becomes
`[Source rank: source_file]`, newline, content, newline, with rank
starting at 1 in retrieval order, `Unknown` when the metadata has no
`source_file`, and one blank line separating consecutive blocks (each
block ends in a newline and the join inserts one more). -/
theorem format_docs_spec (docs : List Document) :
    formatDocs docs = specAssembleContext docs := by
  unfold formatDocs specAssembleContext
  rw [enumFrom_map_renderBlock docs 1]

/-- Witness for C3 at a concrete two-document retrieval, one document
lacking `source_file`. -/
theorem format_docs_spec_witness :
    formatDocs
        [{ page_content := "Paris is the capital of France.",
           metadata := [("source_file", .str "france.txt")] },
         { page_content := "Tokyo is the capital of Japan.", metadata := [] }] =
      specAssembleContext
        [{ page_content := "Paris is the capital of France.",
           metadata := [("source_file", .str "france.txt")] },
         { page_content := "Tokyo is the capital of Japan.", metadata := [] }] :=
  format_docs_spec _

/-! ### C8: the content preview

The claim as stated is false: the code takes the first 100 characters,
replaces newlines by spaces, and appends `"..."`
(text_processor.py 83-84), so the stored preview is not the first 100
characters of the content. -/

/-- C8 counterexample.  For the single chunk produced from
`"Hello world"`, the stored `content_preview` is `"Hello world..."`,
which differs from the first 100 characters of the content
(`"Hello world"` itself). -/
theorem content_preview_not_first100 :
    (process_documents {} [{ page_content := "Hello world", metadata := [] }]
        true).map (fun c => c.page_content) = ["Hello world"] ∧
    (process_documents {} [{ page_content := "Hello world", metadata := [] }]
        true).map (fun c => metaFind c.metadata "content_preview") =
      [some (.str "Hello world...")] ∧
    ("Hello world..." : String) ≠ "Hello world" := by
  refine ⟨by decide, by decide, by decide⟩

/-- C8 as amended.  For every chunk produced with metadata enrichment,
`content_preview` equals the first 100 characters of the chunk's
content with newlines replaced by spaces, followed by `"..."` (that is,
`pyPreview` of the content). -/
theorem content_preview_formula (tp : TextProcessor) (docs : List Document)
    (i : Nat) (hi : i < (process_documents tp docs true).length) :
    metaFind ((process_documents tp docs true).get ⟨i, hi⟩).metadata
        "content_preview" =
      some (.str (pyPreview
        ((process_documents tp docs true).get ⟨i, hi⟩).page_content)) := by
  by_cases hempty : docs.isEmpty
  · exfalso
    rw [process_documents, if_pos hempty] at hi
    exact absurd hi (by simp)
  · have hpd : process_documents tp docs true =
        enhanceChunkMetadata (splitDocuments tp docs) := by
      rw [process_documents, if_neg hempty]
      rfl
    revert hi
    rw [hpd]
    intro hi
    rw [get_enhanceChunkMetadata, enhanceChunk_page_content]
    exact (metaFind_enhanceChunk i _).2.2.2.2

/-- Witness for the amended C8 at the `"Hello world"` chunk. -/
theorem content_preview_formula_witness :
    (0 < (process_documents {} [{ page_content := "Hello world", metadata := [] }]
      true).length) ∧
    metaFind ((process_documents {}
        [{ page_content := "Hello world", metadata := [] }] true).get
          ⟨0, by decide⟩).metadata "content_preview" =
      some (.str (pyPreview ((process_documents {}
        [{ page_content := "Hello world", metadata := [] }] true).get
          ⟨0, by decide⟩).page_content)) :=
  ⟨by decide, content_preview_formula {}
    [{ page_content := "Hello world", metadata := [] }] 0 (by decide)⟩

/-! ### C2: batch-wide sequential chunk ids and derived metadata -/

/-- Validation of the double-precision model against observed CPython
values: at word counts 200 and 700 it matches the exact formula, and at
410 and 820 it reproduces the truncation of `122.99999999999999` and
`245.99999999999997` that exact rational evaluation (123 and 246) would
miss. -/
lemma readingTimeSeconds_values :
    readingTimeSeconds 200 = 60 ∧ readingTimeSeconds 700 = 210 ∧
    readingTimeSeconds 410 = 122 ∧ readingTimeSeconds 820 = 245 := by
  refine ⟨?_, ?_, ?_, ?_⟩ <;> decide

/-- C2.  For every chunk batch produced by one `process_documents` call
with metadata enrichment, the `i`-th emitted chunk carries `chunk_id`
exactly `i` — so the ids are the contiguous 0-based sequence
`0, 1, 2, ...` in emission order across the whole batch, unique and not
restarted per document — together with `chunk_size` equal to its
content's character count, `word_count` equal to its whitespace-
delimited token count, and `reading_time_seconds` derived as
`int((word_count/200)*60)` evaluated in IEEE double precision exactly
as the program computes it (`readingTimeSeconds`). -/
theorem chunk_metadata_enrichment (tp : TextProcessor) (docs : List Document)
    (i : Nat) (hi : i < (process_documents tp docs true).length) :
    metaFind ((process_documents tp docs true).get ⟨i, hi⟩).metadata
        "chunk_id" = some (.nat i) ∧
    metaFind ((process_documents tp docs true).get ⟨i, hi⟩).metadata
        "chunk_size" =
      some (.nat
        ((process_documents tp docs true).get ⟨i, hi⟩).page_content.length) ∧
    metaFind ((process_documents tp docs true).get ⟨i, hi⟩).metadata
        "word_count" =
      some (.nat (pyWordCount
        ((process_documents tp docs true).get ⟨i, hi⟩).page_content)) ∧
    metaFind ((process_documents tp docs true).get ⟨i, hi⟩).metadata
        "reading_time_seconds" =
      some (.nat (readingTimeSeconds (pyWordCount
        ((process_documents tp docs true).get ⟨i, hi⟩).page_content))) := by
  by_cases hempty : docs.isEmpty
  · exfalso
    rw [process_documents, if_pos hempty] at hi
    exact absurd hi (by simp)
  · have hpd : process_documents tp docs true =
        enhanceChunkMetadata (splitDocuments tp docs) := by
      rw [process_documents, if_neg hempty]
      rfl
    revert hi
    rw [hpd]
    intro hi
    rw [get_enhanceChunkMetadata, enhanceChunk_page_content]
    have h := metaFind_enhanceChunk i
      ((splitDocuments tp docs).get ⟨i, by
        simpa [enhanceChunkMetadata] using hi⟩)
    exact ⟨h.1, h.2.1, h.2.2.1, h.2.2.2.1⟩

/-- Witness for C2 at the single chunk produced from `"Hello world"`. -/
theorem chunk_metadata_enrichment_witness :
    (0 < (process_documents {} [{ page_content := "Hello world", metadata := [] }]
      true).length) ∧
    metaFind ((process_documents {}
        [{ page_content := "Hello world", metadata := [] }] true).get
          ⟨0, by decide⟩).metadata "chunk_id" = some (.nat 0) ∧
    metaFind ((process_documents {}
        [{ page_content := "Hello world", metadata := [] }] true).get
          ⟨0, by decide⟩).metadata "chunk_size" =
      some (.nat ((process_documents {}
        [{ page_content := "Hello world", metadata := [] }] true).get
          ⟨0, by decide⟩).page_content.length) ∧
    metaFind ((process_documents {}
        [{ page_content := "Hello world", metadata := [] }] true).get
          ⟨0, by decide⟩).metadata "word_count" =
      some (.nat (pyWordCount ((process_documents {}
        [{ page_content := "Hello world", metadata := [] }] true).get
          ⟨0, by decide⟩).page_content)) ∧
    metaFind ((process_documents {}
        [{ page_content := "Hello world", metadata := [] }] true).get
          ⟨0, by decide⟩).metadata "reading_time_seconds" =
      some (.nat (readingTimeSeconds (pyWordCount ((process_documents {}
        [{ page_content := "Hello world", metadata := [] }] true).get
          ⟨0, by decide⟩).page_content))) :=
  ⟨by decide, chunk_metadata_enrichment {}
    [{ page_content := "Hello world", metadata := [] }] 0 (by decide)⟩

/-! ### C5: chunk quality analysis -/

/-- The float threshold `len < chunk_size * 0.3`, exactly. -/
lemma small_threshold_iff (a b : Nat) :
    ((a : ℚ) < (b : ℚ) * (3 / 10)) ↔ 10 * a < 3 * b := by
  rw [← Nat.cast_lt (α := ℚ)]
  push_cast
  constructor <;> intro h <;> linarith

/-- The float threshold `len > chunk_size * 1.5`, exactly. -/
lemma large_threshold_iff (a b : Nat) :
    ((a : ℚ) > (b : ℚ) * (3 / 2)) ↔ 2 * a > 3 * b := by
  rw [gt_iff_lt, gt_iff_lt, ← Nat.cast_lt (α := ℚ)]
  push_cast
  constructor <;> intro h <;> linarith

/-- The float threshold `count > total * 0.1`, exactly. -/
lemma tenth_threshold_iff (a b : Nat) :
    ((b : ℚ) / 10 < (a : ℚ)) ↔ b < 10 * a := by
  rw [← Nat.cast_lt (α := ℚ)]
  push_cast
  constructor <;> intro h <;> linarith

/-- The float threshold `count > total * 0.15`, exactly. -/
lemma fifteenth_threshold_iff (a b : Nat) :
    ((b : ℚ) * 15 / 100 < (a : ℚ)) ↔ 3 * b < 20 * a := by
  rw [← Nat.cast_lt (α := ℚ)]
  push_cast
  constructor <;> intro h <;> linarith

/-- The code's recommendation block is the spec-described one. -/
lemma buildRecommendations_eq_spec (n ns nl nc : Nat) :
    buildRecommendations n ns nl nc = specRecommendations n ns nl nc := by
  unfold buildRecommendations specRecommendations
  simp only [gt_iff_lt, ← mul_div_assoc, mul_one]
  simp only [tenth_threshold_iff, fifteenth_threshold_iff]
  by_cases h1 : n < 10 * ns <;> by_cases h2 : n < 10 * nl <;>
    by_cases h3 : 3 * n < 20 * nc <;>
    simp [h1, h2, h3]

/-- Counting over `range'` indices with a default-read equals counting
over the list itself. -/
lemma length_filter_range'_getD (p : Document → Bool) :
    ∀ (l : List Document) (s : Nat),
      ((List.range' s l.length).filter
        (fun i => p (l.getD (i - s) dummyDoc))).length =
      (l.filter p).length := by
  intro l
  induction l with
  | nil => intro s; rfl
  | cons d rest ih =>
    intro s
    have hr : List.range' s (d :: rest).length =
        s :: List.range' (s + 1) rest.length := rfl
    rw [hr]
    have htail : (List.range' (s + 1) rest.length).filter
        (fun i => p ((d :: rest).getD (i - s) dummyDoc)) =
        (List.range' (s + 1) rest.length).filter
          (fun i => p (rest.getD (i - (s + 1)) dummyDoc)) := by
      apply List.filter_congr
      intro i hi
      have hs1 : s + 1 ≤ i := (List.mem_range'_1.mp hi).1
      have hii : i - s = (i - (s + 1)) + 1 := by omega
      simp only [hii, List.getD_cons_succ]
    rw [List.filter_cons, List.filter_cons, htail]
    have hhead : ((d :: rest).getD (s - s) dummyDoc) = d := by
      simp
    rw [hhead]
    cases hp : p d
    · rw [if_neg (by simp), if_neg (by simp)]
      exact ih (s + 1)
    · rw [if_pos rfl, if_pos rfl]
      simp only [List.length_cons, ih (s + 1)]

/-- The count computed over `range(1, len(chunks))` equals the count of
matching chunks among all but the first chunk, for any predicate. -/
lemma low_context_count_eq (p : Document → Bool) (chunks : List Document) :
    ((List.range' 1 (chunks.length - 1)).filter
      (fun i => p (chunks.getD i dummyDoc))).length =
    ((chunks.drop 1).filter p).length := by
  cases chunks with
  | nil => rfl
  | cons d rest =>
    have hlen : (d :: rest).length - 1 = rest.length := by simp
    rw [hlen]
    have hcong : (List.range' 1 rest.length).filter
        (fun i => p ((d :: rest).getD i dummyDoc)) =
        (List.range' 1 rest.length).filter
          (fun i => p (rest.getD (i - 1) dummyDoc)) := by
      apply List.filter_congr
      intro i hi
      have h1 : 1 ≤ i := (List.mem_range'_1.mp hi).1
      have hii : i = (i - 1) + 1 := by omega
      conv_lhs => rw [hii]
      rw [List.getD_cons_succ]
    rw [hcong]
    exact length_filter_range'_getD p rest 1

/-- C5.  For every nonempty chunk list, `analyze_chunk_quality` returns
an analysis whose `chunks_too_small` count is exactly the number of
chunks with `10 * len < 3 * chunk_size` (the exact value of
`len < chunk_size * 0.3`), whose `chunks_too_large` count is exactly the
number with `2 * len > 3 * chunk_size` (`len > chunk_size * 1.5`),
whose `chunks_with_low_context` count is exactly the number of chunks
after the first whose content starts with a character the (opaque,
Unicode-aware) `islower` predicate accepts, and whose
recommendations are the spec-described list: one message per category
whose count exceeds its threshold (10 percent for the size categories,
15 percent for low context), with exactly one positive acknowledgment
when none triggers. -/
theorem analyze_chunk_quality_spec (islower : Char → Bool)
    (tp : TextProcessor) (chunks : List Document) (hne : chunks ≠ []) :
    ∃ a, analyze_chunk_quality islower tp chunks = .ok a ∧
      a.quality_metrics.chunks_too_small =
        (chunks.filter fun c =>
          decide (10 * c.page_content.length < 3 * tp.chunk_size)).length ∧
      a.quality_metrics.chunks_too_large =
        (chunks.filter fun c =>
          decide (2 * c.page_content.length > 3 * tp.chunk_size)).length ∧
      a.quality_metrics.chunks_with_low_context =
        ((chunks.drop 1).filter (lowContextChunk islower)).length ∧
      a.recommendations =
        specRecommendations chunks.length a.quality_metrics.chunks_too_small
          a.quality_metrics.chunks_too_large
          a.quality_metrics.chunks_with_low_context := by
  have hempty : chunks.isEmpty = false := by
    simpa [List.isEmpty_iff] using hne
  simp only [analyze_chunk_quality, hempty, Bool.false_eq_true, if_false]
  refine ⟨_, rfl, ?_, ?_, ?_, ?_⟩
  · refine congrArg List.length (List.filter_congr ?_)
    intro c _
    simp only [decide_eq_decide]
    exact small_threshold_iff _ _
  · refine congrArg List.length (List.filter_congr ?_)
    intro c _
    simp only [decide_eq_decide]
    exact large_threshold_iff _ _
  · exact low_context_count_eq (lowContextChunk islower) chunks
  · exact buildRecommendations_eq_spec _ _ _ _

/-- Witness for C5 on a concrete two-chunk list. -/
theorem analyze_chunk_quality_spec_witness :
    ([{ page_content := "This is the first chunk.", metadata := [] },
      { page_content := "and a lowercase start.", metadata := [] }] :
        List Document) ≠ [] ∧
    ∃ a, analyze_chunk_quality Char.isLower
        { chunk_size := 30, chunk_overlap := 0 }
        [{ page_content := "This is the first chunk.", metadata := [] },
         { page_content := "and a lowercase start.", metadata := [] }] = .ok a ∧
      a.quality_metrics.chunks_too_small =
        (([{ page_content := "This is the first chunk.", metadata := [] },
            { page_content := "and a lowercase start.", metadata := [] }] :
              List Document).filter fun c =>
          decide (10 * c.page_content.length < 3 * 30)).length ∧
      a.quality_metrics.chunks_too_large =
        (([{ page_content := "This is the first chunk.", metadata := [] },
            { page_content := "and a lowercase start.", metadata := [] }] :
              List Document).filter fun c =>
          decide (2 * c.page_content.length > 3 * 30)).length ∧
      a.quality_metrics.chunks_with_low_context =
        ((([{ page_content := "This is the first chunk.", metadata := [] },
             { page_content := "and a lowercase start.", metadata := [] }] :
               List Document).drop 1).filter
          (lowContextChunk Char.isLower)).length ∧
      a.recommendations =
        specRecommendations 2 a.quality_metrics.chunks_too_small
          a.quality_metrics.chunks_too_large
          a.quality_metrics.chunks_with_low_context :=
  ⟨by decide, analyze_chunk_quality_spec Char.isLower
    { chunk_size := 30, chunk_overlap := 0 }
    [{ page_content := "This is the first chunk.", metadata := [] },
     { page_content := "and a lowercase start.", metadata := [] }] (by decide)⟩

end DocQA
